import Mathlib

/-!
Shallow embedding of `gc9a01.py` (MicroPython LVGL display driver for the
GC9A01 controller) and proofs about its transaction, flush, initialization,
monitoring and teardown logic.

Conventions of the embedding:
* Byte values and counters are `Nat`; masking with `&&& 0xFF` appears exactly
  where the Python source masks.
* A SPI transaction issued on the bus is an `Event`: `cmd` and `data` are
  blocking sends issued through `spi_send` (`spi_device_polling_transmit`),
  `dmaData` is a queued DMA send issued through `spi_send_dma`
  (`spi_device_queue_trans`); `dmaData` records the payload length in bytes.
* External, environment-supplied values (cycle-counter readings from
  `esp.get_ccount`, success of `esp.heap_caps_malloc`, `lv.color_t.SIZE`,
  `esp.esp_clk_cpu_freq()//1000`) are passed as explicit parameters or carried
  in the state.
-/

namespace GC9A01

/-- A SPI transaction as it is put on the bus.  `cmd c` is the one-byte
command transaction of `send_cmd` (D/C low), `data bs` is a blocking data
transaction of the bytes `bs` (D/C high), `dmaData n` is the queued DMA data
transaction of `n` bytes (`send_data_dma`). -/
inductive Event where
  | cmd (c : Nat)
  | data (bs : List Nat)
  | dmaData (len : Nat)
  deriving DecidableEq, Repr

/-- Blocking versus queued sends: `spi_send` is a blocking polling transmit; `spi_send_dma` queues the
transaction.  `cmd`/`data` events go through `spi_send`, `dmaData` through
`spi_send_dma`. -/
def isBlockingSend : Event → Bool
  | .cmd _ => true
  | .data _ => true
  | .dmaData _ => false

/-- Constant `TRANS_BUFFER_LEN = const(16)`: byte size of the scratch DMA transfer
buffer used by the blocking send path. -/
def TRANS_BUFFER_LEN : Nat := 16

/-- Errors raised by the driver code (Python exceptions). -/
inductive DriverError where
  | sizeViolation       -- RuntimeError('Data too long, please use DMA!')
  | resourceExhaustion  -- RuntimeError("Not enough DMA-able memory ...")
  | configurationError  -- RuntimeError('Rotation must be 0, 90, 180 or 270.')
  | attributeError      -- Python AttributeError
  deriving DecidableEq, Repr

/-- Method `send_cmd(cmd)`: D/C low, write the byte into the one-byte view of the
scratch buffer, blocking send.  The transaction carries the single byte. -/
def send_cmd (c : Nat) : List Event := [Event.cmd c]

/-- Method `send_trans_word()`: D/C high, blocking send of the 4-byte
`word_trans_data` view of the scratch buffer. -/
def send_trans_word (w : List Nat) : List Event := [Event.data w]

/-- Method `send_data_dma(data)`: D/C high, queue a DMA transaction for the buffer
(length recorded in bytes; the source sets `trans.length = len(data) * 8`
bits). -/
def send_data_dma (len : Nat) : List Event := [Event.dmaData len]

/-- Method `send_data(data)`: D/C high; if `len(data) > TRANS_BUFFER_LEN` raise
`RuntimeError('Data too long, please use DMA!')` before any SPI transaction;
otherwise copy `data` into the first `len(data)` bytes of the scratch
transfer buffer (`trans_data[:] = data[:]`) and issue a blocking send of that
view.  Returns the updated scratch buffer contents and the transactions
issued. -/
def send_data (scratch : List Nat) (dat : List Nat) :
    Except DriverError (List Nat × List Event) :=
  if dat.length > TRANS_BUFFER_LEN then
    Except.error DriverError.sizeViolation
  else
    let scratch2 := dat ++ scratch.drop dat.length
    Except.ok (scratch2, [Event.data (scratch2.take dat.length)])

/-- LVGL area rectangle `{x1, y1, x2, y2}` in panel coordinates. -/
structure Area where
  x1 : Nat
  y1 : Nat
  x2 : Nat
  y2 : Nat
  deriving DecidableEq, Repr

/-- Mutable driver timing/monitor state: the two cycle-counter slots
(`start_time_ptr`, `end_time_ptr`), the flush cycle accumulators, the LVGL
monitor accumulators, and the constant `cycles_in_ms =
esp.esp_clk_cpu_freq() // 1000`. -/
structure StatState where
  start_time : Nat
  end_time : Nat
  flush_acc_setup_cycles : Nat
  flush_acc_dma_cycles : Nat
  monitor_acc_time : Nat
  monitor_acc_px : Nat
  monitor_count : Nat
  cycles_in_ms : Nat
  deriving DecidableEq, Repr

/-- The big-endian address-window bytes `flush` stores into
`word_trans_data` for a coordinate pair `(a, b)`:
`[(a >> 8) & 0xFF, a & 0xFF, (b >> 8) & 0xFF, b & 0xFF]`. -/
def windowBytes (a b : Nat) : List Nat :=
  [(a >>> 8) &&& 0xFF, a &&& 0xFF, (b >>> 8) &&& 0xFF, b &&& 0xFF]

/-- Method `flush(disp_drv, area, color_p)`.  `colorSize` is `lv.color_t.SIZE`
(bytes per pixel); `c1`, `c2`, `c3` are the three successive
`esp.get_ccount` readings taken at lines 481, 512 and 515 of the source.
Steps, in source order:
1. if `end_time_ptr.int_val` is nonzero and greater than
   `start_time_ptr.int_val`, add the difference to `flush_acc_dma_cycles`;
2. `start_time := c1`;
3. `send_cmd(0x2A)` then `send_trans_word` with the `x1,x2` window bytes;
4. `send_cmd(0x2B)` then `send_trans_word` with the `y1,y2` window bytes;
5. `send_cmd(0x2C)`;
6. `end_time := c2`; if `c2 > c1` add the difference to
   `flush_acc_setup_cycles`; `start_time := c3`;
7. `send_data_dma` of `(x2-x1+1)*(y2-y1+1)*colorSize` bytes.
Returns the updated state and the list of transactions issued, in order. -/
def flush (st : StatState) (colorSize : Nat) (a : Area) (c1 c2 c3 : Nat) :
    StatState × List Event :=
  let dmaAcc :=
    if st.end_time ≠ 0 ∧ st.end_time > st.start_time then
      st.flush_acc_dma_cycles + (st.end_time - st.start_time)
    else st.flush_acc_dma_cycles
  let setupAcc :=
    if c2 > c1 then st.flush_acc_setup_cycles + (c2 - c1)
    else st.flush_acc_setup_cycles
  let size := (a.x2 - a.x1 + 1) * (a.y2 - a.y1 + 1)
  let events :=
    send_cmd 0x2A ++ send_trans_word (windowBytes a.x1 a.x2) ++
    send_cmd 0x2B ++ send_trans_word (windowBytes a.y1 a.y2) ++
    send_cmd 0x2C ++ send_data_dma (size * colorSize)
  ({ st with
      start_time := c3
      end_time := c2
      flush_acc_dma_cycles := dmaAcc
      flush_acc_setup_cycles := setupAcc }, events)

/-- Callback `flush_isr(spi_transaction_ptr)`, run in interrupt context on DMA
completion: calls `disp_drv.flush_ready()` (the returned `Bool` records that
the notification was signalled) and stores a fresh cycle-counter reading
`c` into `end_time_ptr`.  Nothing else is live in the source (the
bookkeeping below it is commented out). -/
def flush_isr (st : StatState) (c : Nat) : StatState × Bool :=
  ({ st with end_time := c }, true)

/-- Method `monitor(disp_drv, time, px)`: LVGL per-frame timing hook. -/
def monitor (st : StatState) (time px : Nat) : StatState :=
  { st with
      monitor_acc_time := st.monitor_acc_time + time
      monitor_acc_px := st.monitor_acc_px + px
      monitor_count := st.monitor_count + 1 }

/-- Method `stat()`: returns `None` when `monitor_count == 0`; otherwise returns
`(time, setup, dma, px)` where `time` and `px` are the monitor accumulators
integer-divided by `monitor_count` and `setup`/`dma` are the cycle
accumulators integer-divided by `monitor_count * cycles_in_ms`, and zeroes
all five accumulators. -/
def stat (st : StatState) : Option (Nat × Nat × Nat × Nat) × StatState :=
  if st.monitor_count = 0 then (none, st)
  else
    let time := st.monitor_acc_time / st.monitor_count
    let setup := st.flush_acc_setup_cycles / (st.monitor_count * st.cycles_in_ms)
    let dma := st.flush_acc_dma_cycles / (st.monitor_count * st.cycles_in_ms)
    let px := st.monitor_acc_px / st.monitor_count
    (some (time, setup, dma, px),
     { st with
        monitor_acc_time := 0
        monitor_acc_px := 0
        monitor_count := 0
        flush_acc_setup_cycles := 0
        flush_acc_dma_cycles := 0 })

/-- The module-level `ROTATE` dict mapping a rotation angle to the opcode
used in the init table: `{0: 0x18, 90: 0x28, 180: 0x48, 270: 0x88}`; `none`
models a key that is not in the dict. -/
def ROTATE (r : Nat) : Option Nat :=
  if r = 0 then some 0x18
  else if r = 90 then some 0x28
  else if r = 180 then some 0x48
  else if r = 270 then some 0x88
  else none

/-- One entry of the `init_cmds` table: `{'cmd': ..., 'data': ...,
'delay': ...}` with `data` and `delay` optional. -/
structure InitCommand where
  cmd : Nat
  data : Option (List Nat) := none
  delay : Option Nat := none
  deriving DecidableEq, Repr

/-- The `init_cmds` table assigned at line 144 of the source, as a function
of the already-translated rotation byte `self.rotation = ROTATE[rotation]`
(used as the `cmd` of the entry at index 19).  The table is a fixed literal
otherwise; in particular it does not depend on the `invert` flag. -/
def init_cmds (rotation : Nat) : List InitCommand :=
  [ ⟨0xEF, some [0], none⟩,
    ⟨0xEB, some [0x14], none⟩,
    ⟨0xFE, some [0], none⟩,
    ⟨0xEF, some [0], none⟩,
    ⟨0xEB, some [0x14], none⟩,
    ⟨0x84, some [0x40], none⟩,
    ⟨0x85, some [0xFF], none⟩,
    ⟨0x86, some [0xFF], none⟩,
    ⟨0x87, some [0xFF], none⟩,
    ⟨0x88, some [0x0A], none⟩,
    ⟨0x89, some [0x21], none⟩,
    ⟨0x8A, some [0x00], none⟩,
    ⟨0x8B, some [0x80], none⟩,
    ⟨0x8C, some [0x01], none⟩,
    ⟨0x8D, some [0x01], none⟩,
    ⟨0x8E, some [0xFF], none⟩,
    ⟨0x8F, some [0xFF], none⟩,
    ⟨0xB6, some [0x00, 0x00], none⟩,
    ⟨0x36, some [0x48], none⟩,
    ⟨rotation, some [0], none⟩,
    ⟨0x3A, some [0x05], none⟩,
    ⟨0x90, some [0x08, 0x08, 0x08, 0x08], none⟩,
    ⟨0xBD, some [0x06], none⟩,
    ⟨0xBC, some [0x00], none⟩,
    ⟨0xFF, some [0x60, 0x01, 0x04], none⟩,
    ⟨0xC3, some [0x13], none⟩,
    ⟨0xC4, some [0x13], none⟩,
    ⟨0xC9, some [0x22], none⟩,
    ⟨0xBE, some [0x11], none⟩,
    ⟨0xE1, some [0x10, 0x0E], none⟩,
    ⟨0xDF, some [0x21, 0x0c, 0x02], none⟩,
    ⟨0xF0, some [0x45, 0x09, 0x08, 0x08, 0x26, 0x2A], none⟩,
    ⟨0xF1, some [0x43, 0x70, 0x72, 0x36, 0x37, 0x6F], none⟩,
    ⟨0xF2, some [0x45, 0x09, 0x08, 0x08, 0x26, 0x2A], none⟩,
    ⟨0xF3, some [0x43, 0x70, 0x72, 0x36, 0x37, 0x6F], none⟩,
    ⟨0xED, some [0x1B, 0x0B], none⟩,
    ⟨0xAE, some [0x77], none⟩,
    ⟨0xCD, some [0x63], none⟩,
    ⟨0x70, some [0x07, 0x07, 0x04, 0x0E, 0x0F, 0x09, 0x07, 0x08, 0x03], none⟩,
    ⟨0xE8, some [0x34], none⟩,
    ⟨0x62, some [0x18, 0x0D, 0x71, 0xED, 0x70, 0x70, 0x18, 0x0F, 0x71, 0xEF, 0x70, 0x70], none⟩,
    ⟨0x63, some [0x18, 0x11, 0x71, 0xF1, 0x70, 0x70, 0x18, 0x13, 0x71, 0xF3, 0x70, 0x70], none⟩,
    ⟨0x64, some [0x28, 0x29, 0xF1, 0x01, 0xF1, 0x00, 0x07], none⟩,
    ⟨0x66, some [0x3C, 0x00, 0xCD, 0x67, 0x45, 0x45, 0x10, 0x00, 0x00, 0x00], none⟩,
    ⟨0x67, some [0x00, 0x3C, 0x00, 0x00, 0x00, 0x01, 0x54, 0x10, 0x32, 0x98], none⟩,
    ⟨0x74, some [0x10, 0x85, 0x80, 0x00, 0x00, 0x4E, 0x00], none⟩,
    ⟨0x98, some [0x3e, 0x07], none⟩,
    ⟨0x35, some [0], none⟩,
    ⟨0x21, some [0], none⟩,
    ⟨0x11, some [0], some 20⟩,
    ⟨0x29, some [0], some 120⟩ ]

/-- The configuration values of `__init__` that the verified claims depend
on.  `colorSize` stands for `lv.color_t.SIZE` (bytes per pixel, 2 for the
recommended 16-bit build). -/
structure DisplayConfig where
  width : Nat := 240
  height : Nat := 240
  factor : Nat := 4
  colorSize : Nat := 2
  invert : Bool := false
  double_buffer : Bool := true
  rotation : Nat := 0
  deriving DecidableEq, Repr

/-- Computation `self.buf_size = (self.width * self.height * lv.color_t.SIZE) // factor`. -/
def buf_size (width height colorSize factor : Nat) : Nat :=
  width * height * colorSize / factor

/-- The pixel-buffer allocation of `__init__` (lines 114-122).  `alloc1`,
`alloc2` model whether the two `esp.heap_caps_malloc(buf_size, DMA)` calls
return a non-null pointer.  `buf2` is only allocated when `double_buffer`
is true, otherwise it is `None` (`false`) and `heap_caps_malloc` is called
once.  Returns the `(buf1, buf2)` handles (or the raised
`RuntimeError("Not enough DMA-able memory ...")` when `buf1` is null and
`buf2` is null) and the number of allocation calls made. -/
def allocBuffers (double_buffer alloc1 alloc2 : Bool) :
    Except DriverError (Bool × Bool) × Nat :=
  let buf1 := alloc1
  let (buf2, calls) := if double_buffer then (alloc2, 2) else (false, 1)
  (if buf1 && buf2 then Except.ok (buf1, buf2)        -- "Double buffer"
   else if buf1 then Except.ok (buf1, buf2)           -- "Single buffer"
   else Except.error DriverError.resourceExhaustion, calls)

/-- The part of the constructed driver object that the claims inspect. -/
structure Driver where
  width : Nat
  height : Nat
  buf_size : Nat
  buf1 : Bool
  buf2 : Bool
  rotation : Nat
  init_cmds : List InitCommand
  deriving DecidableEq, Repr

/-- Constructor `__init__`, in source order for the steps the claims depend on:
1. `self.buf_size = (width * height * lv.color_t.SIZE) // factor` (line 107);
2. `if invert: self.init_cmds.append({'cmd': 0x21})` (lines 109-110) — at
   this point no `init_cmds` attribute exists on the instance or the class
   (it is first assigned at line 144), so the attribute lookup raises
   `AttributeError` and construction aborts;
3. allocate the DMA pixel buffers, raising `RuntimeError` when `buf1` is
   null and `buf2` is null (lines 114-122);
4. check `rotation in ROTATE.keys()`, raising
   `RuntimeError('Rotation must be 0, 90, 180 or 270.')` otherwise, and set
   `self.rotation = ROTATE[rotation]` (lines 138-141);
5. assign the `init_cmds` table (line 144). -/
def construct (cfg : DisplayConfig) (alloc1 alloc2 : Bool) :
    Except DriverError Driver :=
  let bsize := buf_size cfg.width cfg.height cfg.colorSize cfg.factor
  if cfg.invert then Except.error DriverError.attributeError
  else
    match (allocBuffers cfg.double_buffer alloc1 alloc2).1 with
    | Except.error e => Except.error e
    | Except.ok (b1, b2) =>
      match ROTATE cfg.rotation with
      | none => Except.error DriverError.configurationError
      | some m =>
        Except.ok { width := cfg.width, height := cfg.height,
                    buf_size := bsize, buf1 := b1, buf2 := b2,
                    rotation := m, init_cmds := init_cmds m }

/-- One step of the command loop of `_init` (lines 427-432): send the
command byte, then, when the entry has `data`, send it through the blocking
`send_data` path (threading the scratch transfer buffer).  The `delay`
entries only suspend and issue no transaction. -/
def initStep (acc : Except DriverError (List Nat × List Event))
    (c : InitCommand) : Except DriverError (List Nat × List Event) :=
  match acc with
  | Except.error e => Except.error e
  | Except.ok (scr, evs) =>
    let evs := evs ++ send_cmd c.cmd
    match c.data with
    | none => Except.ok (scr, evs)
    | some d =>
      match send_data scr d with
      | Except.error e => Except.error e
      | Except.ok (scr2, e2) => Except.ok (scr2, evs ++ e2)

/-- The command loop of `_init`: consume the `init_cmds` table once, in
order, starting from scratch transfer-buffer contents `scratch`. -/
def initRun (scratch : List Nat) (cmds : List InitCommand) :
    Except DriverError (List Nat × List Event) :=
  cmds.foldl initStep (Except.ok (scratch, []))

/-- The resource handles freed by `deinit`: `true` means the handle is
non-null (`self.spi`, `self.spihost`, `self.buf1`, `self.buf2`,
`self.trans_buffer`). -/
structure Resources where
  spi : Bool
  spihost : Bool
  buf1 : Bool
  buf2 : Bool
  trans_buffer : Bool
  deriving DecidableEq, Repr

/-- A release action performed by `deinit`. -/
inductive Release where
  | device       -- esp.spi_bus_remove_device(self.spi)
  | bus          -- esp.spi_bus_free(self.spihost)
  | buffer1      -- esp.heap_caps_free(self.buf1)
  | buffer2      -- esp.heap_caps_free(self.buf2)
  | transBuffer  -- esp.heap_caps_free(self.trans_buffer)
  deriving DecidableEq, Repr

/-- Method `deinit()` (lines 309-351): when `self.spi` is non-null, drain pending
transaction results, remove the device and null `self.spi`, free the bus
and null `self.spihost`; then free and null each of `buf1`, `buf2`,
`trans_buffer` that is non-null.  Returns the new handle state and the
release actions performed, in order. -/
def deinit (r : Resources) : Resources × List Release :=
  let (r1, rel1) :=
    if r.spi then
      ({ r with spi := false, spihost := false }, [Release.device, Release.bus])
    else (r, [])
  let (r2, rel2) :=
    if r1.buf1 then ({ r1 with buf1 := false }, [Release.buffer1]) else (r1, [])
  let (r3, rel3) :=
    if r2.buf2 then ({ r2 with buf2 := false }, [Release.buffer2]) else (r2, [])
  let (r4, rel4) :=
    if r3.trans_buffer then ({ r3 with trans_buffer := false }, [Release.transBuffer])
    else (r3, [])
  (r4, rel1 ++ rel2 ++ rel3 ++ rel4)

/-- A concrete all-zero timing/monitor state with the default 240 MHz clock
(`cycles_in_ms = 240000`), used to instantiate theorems. -/
def initialStat : StatState :=
  { start_time := 0, end_time := 0, flush_acc_setup_cycles := 0,
    flush_acc_dma_cycles := 0, monitor_acc_time := 0, monitor_acc_px := 0,
    monitor_count := 0, cycles_in_ms := 240000 }

/-- Fold of the LVGL `monitor` callback over a list of
`(elapsed time, pixel count)` frame records. -/
def recordFrames (st : StatState) (frames : List (Nat × Nat)) : StatState :=
  frames.foldl (fun s f => monitor s f.1 f.2) st

theorem recordFrames_monitor_count (frames : List (Nat × Nat)) :
    ∀ st : StatState,
      (recordFrames st frames).monitor_count = st.monitor_count + frames.length := by
  induction frames with
  | nil => intro st; simp [recordFrames]
  | cons f fs ih =>
      intro st
      have h := ih (monitor st f.1 f.2)
      simp only [recordFrames, List.foldl_cons] at h ⊢
      rw [h]
      simp [monitor]
      omega

theorem recordFrames_cycles_in_ms (frames : List (Nat × Nat)) :
    ∀ st : StatState,
      (recordFrames st frames).cycles_in_ms = st.cycles_in_ms := by
  induction frames with
  | nil => intro st; simp [recordFrames]
  | cons f fs ih =>
      intro st
      have h := ih (monitor st f.1 f.2)
      simp only [recordFrames, List.foldl_cons] at h ⊢
      rw [h]
      rfl

/-- C1: For every area with `0 ≤ x1 ≤ x2 ≤ width-1` and
`0 ≤ y1 ≤ y2 ≤ height-1`, `flush` sends the column-address command `0x2A`
followed by the window bytes `(x1>>8)&0xFF, x1&0xFF, (x2>>8)&0xFF, x2&0xFF`
(the 16-bit big-endian encoding of `(x1, x2)`), then the row-address command
`0x2B` followed by the big-endian encoding of `(y1, y2)`, then the
memory-write command `0x2C`, and finally queues a DMA data send of exactly
`(x2-x1+1)*(y2-y1+1)*bytesPerPixel` bytes. -/
theorem flush_address_window_and_dma_length
    (st : StatState) (width height colorSize : Nat) (a : Area) (c1 c2 c3 : Nat)
    (hx12 : a.x1 ≤ a.x2) (hx2 : a.x2 ≤ width - 1)
    (hy12 : a.y1 ≤ a.y2) (hy2 : a.y2 ≤ height - 1) :
    (flush st colorSize a c1 c2 c3).2 =
      [Event.cmd 0x2A,
       Event.data [(a.x1 >>> 8) &&& 0xFF, a.x1 &&& 0xFF,
                   (a.x2 >>> 8) &&& 0xFF, a.x2 &&& 0xFF],
       Event.cmd 0x2B,
       Event.data [(a.y1 >>> 8) &&& 0xFF, a.y1 &&& 0xFF,
                   (a.y2 >>> 8) &&& 0xFF, a.y2 &&& 0xFF],
       Event.cmd 0x2C,
       Event.dmaData ((a.x2 - a.x1 + 1) * (a.y2 - a.y1 + 1) * colorSize)] := rfl

/-- Witness for C1: the full-screen flush of the spec's end-to-end test,
area `(0,0,239,239)` on a `240×240` panel at 2 bytes per pixel, sends the
windows `[0,0,0,239]` and queues a DMA payload of `115200` bytes. -/
theorem flush_address_window_and_dma_length_witness :
    (flush initialStat 2 ⟨0, 0, 239, 239⟩ 0 0 0).2 =
      [Event.cmd 0x2A, Event.data [0, 0, 0, 239],
       Event.cmd 0x2B, Event.data [0, 0, 0, 239],
       Event.cmd 0x2C, Event.dmaData 115200] := by
  have h := flush_address_window_and_dma_length initialStat 240 240 2
      ⟨0, 0, 239, 239⟩ 0 0 0 (by decide) (by decide) (by decide) (by decide)
  exact h.trans (by decide)

/-- C6: In every `flush` invocation the DMA data send is the last
transaction of the flush: every transaction before it (the column-address,
row-address and memory-write commands and the two window-byte payloads) goes
through the blocking `spi_send` path, and the queued DMA transfer is issued
only after all of them. -/
theorem flush_dma_issued_after_addressing
    (st : StatState) (colorSize : Nat) (a : Area) (c1 c2 c3 : Nat) :
    (flush st colorSize a c1 c2 c3).2.dropLast.all isBlockingSend = true ∧
    (flush st colorSize a c1 c2 c3).2.getLast? =
      some (Event.dmaData ((a.x2 - a.x1 + 1) * (a.y2 - a.y1 + 1) * colorSize)) ∧
    Event.cmd 0x2A ∈ (flush st colorSize a c1 c2 c3).2.dropLast ∧
    Event.cmd 0x2B ∈ (flush st colorSize a c1 c2 c3).2.dropLast ∧
    Event.cmd 0x2C ∈ (flush st colorSize a c1 c2 c3).2.dropLast := by
  refine ⟨rfl, rfl, ?_, ?_, ?_⟩ <;>
    simp [flush, send_cmd, send_trans_word, send_data_dma, windowBytes]

/-- C9: The DMA-latency accumulator is not updated when a DMA transfer
completes: `flush_isr` only signals flush-ready and stores the end
timestamp, leaving `flush_acc_dma_cycles` (and everything else) unchanged;
the elapsed DMA cycles are added at the start of the next `flush`
invocation, and only when the end timestamp is nonzero and greater than the
recorded start timestamp — so a flush whose completion is not followed by
another flush is never counted in the accumulator. -/
theorem dma_cycles_accounted_at_next_flush
    (st : StatState) (colorSize : Nat) (a a' : Area)
    (c1 c2 c3 cEnd c1' c2' c3' : Nat) :
    (flush_isr (flush st colorSize a c1 c2 c3).1 cEnd).2 = true ∧
    (flush_isr (flush st colorSize a c1 c2 c3).1 cEnd).1.end_time = cEnd ∧
    (flush_isr (flush st colorSize a c1 c2 c3).1 cEnd).1.flush_acc_dma_cycles =
      (flush st colorSize a c1 c2 c3).1.flush_acc_dma_cycles ∧
    (flush_isr (flush st colorSize a c1 c2 c3).1 cEnd).1.flush_acc_setup_cycles =
      (flush st colorSize a c1 c2 c3).1.flush_acc_setup_cycles ∧
    (flush_isr (flush st colorSize a c1 c2 c3).1 cEnd).1.start_time =
      (flush st colorSize a c1 c2 c3).1.start_time ∧
    (flush st colorSize a c1 c2 c3).1.flush_acc_dma_cycles =
      (if st.end_time ≠ 0 ∧ st.end_time > st.start_time then
        st.flush_acc_dma_cycles + (st.end_time - st.start_time)
       else st.flush_acc_dma_cycles) ∧
    (flush (flush_isr (flush st colorSize a c1 c2 c3).1 cEnd).1
        colorSize a' c1' c2' c3').1.flush_acc_dma_cycles =
      (if cEnd ≠ 0 ∧ cEnd > c3 then
        (flush st colorSize a c1 c2 c3).1.flush_acc_dma_cycles + (cEnd - c3)
       else (flush st colorSize a c1 c2 c3).1.flush_acc_dma_cycles) := by
  refine ⟨rfl, rfl, rfl, rfl, rfl, rfl, ?_⟩
  simp [flush, flush_isr]

/-- C2 counterexample states: One flush that accrues 3 setup cycles on
a driver whose `cycles_in_ms` is 2, followed by one `monitor` record of
`(time = 5, px = 7)`. -/
def statCexState : StatState :=
  monitor (flush { initialStat with cycles_in_ms := 2 } 2 ⟨0, 0, 0, 0⟩ 0 3 3).1 5 7

/-- C2 counterexample: The claim says every component of the tuple
returned by `stat` is the corresponding accumulator integer-divided by the
sample count `N`.  On `statCexState` (one recorded frame, setup accumulator
3, `cycles_in_ms = 2`) the returned setup component is
`3 / (1 * 2) = 1`, while the claimed value `3 / 1 = 3` differs. -/
theorem stat_mean_claim_counterexample :
    statCexState.monitor_count = 1 ∧
    statCexState.flush_acc_setup_cycles = 3 ∧
    (stat statCexState).1 = some (5, 1, 0, 7) ∧
    statCexState.flush_acc_setup_cycles / statCexState.monitor_count = 3 ∧
    (1 : Nat) ≠ 3 := by decide

/-- C2 amended: When the sample count is zero `stat` returns the
no-data result; after `N` `monitor` calls it returns the tuple whose time
and pixel components are the accumulators integer-divided by `N` and whose
setup and DMA components are the cycle accumulators integer-divided by
`N * cycles_in_ms` (converting cycles to milliseconds), zeroes all five
accumulators, and an immediately following call again returns the no-data
result. -/
theorem stat_readAndReset_spec (st0 : StatState) (h0 : st0.monitor_count = 0)
    (frames : List (Nat × Nat)) (hne : frames ≠ []) :
    (stat st0).1 = none ∧
    (stat (recordFrames st0 frames)).1 =
      some ((recordFrames st0 frames).monitor_acc_time / frames.length,
            (recordFrames st0 frames).flush_acc_setup_cycles /
              (frames.length * st0.cycles_in_ms),
            (recordFrames st0 frames).flush_acc_dma_cycles /
              (frames.length * st0.cycles_in_ms),
            (recordFrames st0 frames).monitor_acc_px / frames.length) ∧
    (stat (recordFrames st0 frames)).2.monitor_acc_time = 0 ∧
    (stat (recordFrames st0 frames)).2.monitor_acc_px = 0 ∧
    (stat (recordFrames st0 frames)).2.monitor_count = 0 ∧
    (stat (recordFrames st0 frames)).2.flush_acc_setup_cycles = 0 ∧
    (stat (recordFrames st0 frames)).2.flush_acc_dma_cycles = 0 ∧
    (stat (stat (recordFrames st0 frames)).2).1 = none := by
  have hc : (recordFrames st0 frames).monitor_count = frames.length := by
    rw [recordFrames_monitor_count, h0, Nat.zero_add]
  have hcims : (recordFrames st0 frames).cycles_in_ms = st0.cycles_in_ms :=
    recordFrames_cycles_in_ms frames st0
  have hlen : frames.length ≠ 0 := fun h => hne (List.length_eq_zero.mp h)
  have hcne : (recordFrames st0 frames).monitor_count ≠ 0 := by rw [hc]; exact hlen
  refine ⟨by simp [stat, h0], ?_, ?_, ?_, ?_, ?_, ?_, ?_⟩ <;>
    simp [stat, hcne, hc, hcims, hne]

/-- Witness for C2 (amended): from a fresh state with `cycles_in_ms = 2`,
one recorded frame `(5, 7)` makes `stat` return `(5, 0, 0, 7)`, and with no
recorded frames it returns the no-data result. -/
theorem stat_readAndReset_spec_witness :
    (stat { initialStat with cycles_in_ms := 2 }).1 = none ∧
    (stat (recordFrames { initialStat with cycles_in_ms := 2 } [(5, 7)])).1 =
      some (5, 0, 0, 7) := by
  have h := stat_readAndReset_spec { initialStat with cycles_in_ms := 2 } rfl
      [(5, 7)] (by decide)
  exact ⟨h.1, h.2.1.trans (by decide)⟩

/-- C5: `send_data` raises the size-violation error exactly when the
payload exceeds `TRANS_BUFFER_LEN = 16` bytes, issuing no SPI transaction
(the error result carries none); for payloads within the limit it copies the
bytes into the front of the scratch transfer buffer and issues one blocking
data transaction carrying exactly those bytes. -/
theorem send_data_size_check (scratch dat : List Nat) :
    (send_data scratch dat = Except.error DriverError.sizeViolation ↔
      dat.length > TRANS_BUFFER_LEN) ∧
    (dat.length ≤ TRANS_BUFFER_LEN →
      send_data scratch dat =
        Except.ok (dat ++ scratch.drop dat.length, [Event.data dat]) ∧
      (dat ++ scratch.drop dat.length).take dat.length = dat) := by
  constructor
  · constructor
    · intro h
      by_contra hgt
      simp [send_data, hgt] at h
    · intro h
      simp [send_data, h]
  · intro h
    have hgt : ¬ dat.length > TRANS_BUFFER_LEN := Nat.not_lt.mpr h
    refine ⟨?_, List.take_left dat _⟩
    simp [send_data, hgt, List.take_left]

/-- Witness for C5: a 3-byte payload into a 16-byte scratch buffer is copied
to the buffer's front and sent as a single blocking transaction. -/
theorem send_data_size_check_witness :
    send_data (List.replicate 16 0) [1, 2, 3] =
      Except.ok ([1, 2, 3] ++ (List.replicate 16 (0 : Nat)).drop 3,
                 [Event.data [1, 2, 3]]) := by
  have h := (send_data_size_check (List.replicate 16 0) [1, 2, 3]).2 (by decide)
  exact h.1

/-- C4: For each rotation in `{0, 90, 180, 270}` construction succeeds
and the init table's MADCTL-equivalent entry (index 19) carries the
documented opcode (`0x18`, `0x28`, `0x48`, `0x88` respectively); for every
other rotation value construction fails with the configuration error
(`RuntimeError('Rotation must be 0, 90, 180 or 270.')`). -/
theorem rotation_construction_spec :
    (∃ d, construct { rotation := 0 } true true = Except.ok d ∧
      d.init_cmds.get? 19 = some ⟨0x18, some [0], none⟩) ∧
    (∃ d, construct { rotation := 90 } true true = Except.ok d ∧
      d.init_cmds.get? 19 = some ⟨0x28, some [0], none⟩) ∧
    (∃ d, construct { rotation := 180 } true true = Except.ok d ∧
      d.init_cmds.get? 19 = some ⟨0x48, some [0], none⟩) ∧
    (∃ d, construct { rotation := 270 } true true = Except.ok d ∧
      d.init_cmds.get? 19 = some ⟨0x88, some [0], none⟩) ∧
    (∀ r : Nat, ¬(r = 0 ∨ r = 90 ∨ r = 180 ∨ r = 270) →
      construct { rotation := r } true true =
        Except.error DriverError.configurationError) := by
  refine ⟨⟨_, rfl, rfl⟩, ⟨_, rfl, rfl⟩, ⟨_, rfl, rfl⟩, ⟨_, rfl, rfl⟩, ?_⟩
  intro r hr
  push_neg at hr
  obtain ⟨h0, h90, h180, h270⟩ := hr
  simp [construct, allocBuffers, ROTATE, h0, h90, h180, h270]

/-- Witness for C4: a rotation of 45 is rejected at construction with the
configuration error. -/
theorem rotation_construction_spec_witness :
    construct { rotation := 45 } true true =
      Except.error DriverError.configurationError :=
  rotation_construction_spec.2.2.2.2 45 (by decide)

/-- C7: The per-buffer size is `width * height * bytesPerPixel / factor`
(28800 bytes for the default `240×240×2/4` configuration); with
`double_buffer = false`, `heap_caps_malloc` is called once and the driver
holds exactly one DMA buffer; and when no buffer can be allocated
construction fails with the resource-exhaustion error. -/
theorem buffer_allocation_spec :
    buf_size 240 240 2 4 = 28800 ∧
    (∀ w h cs f : Nat, buf_size w h cs f = w * h * cs / f) ∧
    (∃ d, construct {} true true = Except.ok d ∧
      d.buf_size = 28800 ∧ d.buf1 = true ∧ d.buf2 = true) ∧
    (∃ d, construct { double_buffer := false } true true = Except.ok d ∧
      d.buf_size = 28800 ∧ d.buf1 = true ∧ d.buf2 = false) ∧
    (∀ a1 a2 : Bool, (allocBuffers false a1 a2).2 = 1) ∧
    (∀ db : Bool,
      (allocBuffers db false false).1 =
        Except.error DriverError.resourceExhaustion) ∧
    (∀ db : Bool,
      construct { double_buffer := db } false false =
        Except.error DriverError.resourceExhaustion) := by
  refine ⟨rfl, fun w h cs f => rfl, ⟨_, rfl, rfl, rfl, rfl⟩,
    ⟨_, rfl, rfl, rfl, rfl⟩, fun a1 a2 => rfl, fun db => ?_, fun db => ?_⟩ <;>
    cases db <;> rfl

/-- C8: `deinit` is idempotent: after one call the SPI device handle,
the two pixel buffers and the scratch transfer buffer are all null (and the
bus host handle is null whenever the device handle was live and the bus was
therefore freed), so a second call performs no release and leaves the state
unchanged. -/
theorem deinit_idempotent : ∀ r : Resources,
    (deinit r).1.spi = false ∧
    (deinit r).1.buf1 = false ∧
    (deinit r).1.buf2 = false ∧
    (deinit r).1.trans_buffer = false ∧
    (deinit r).1.spihost = (if r.spi then false else r.spihost) ∧
    (deinit (deinit r).1).2 = [] ∧
    (deinit (deinit r).1).1 = (deinit r).1 := by
  rintro ⟨s, h, b1, b2, t⟩
  cases s <;> cases h <;> cases b1 <;> cases b2 <;> cases t <;>
    exact ⟨rfl, rfl, rfl, rfl, rfl, rfl, rfl⟩

/-- C3, code evaluated at the failing input: Constructing with
`invert = true` executes `self.init_cmds.append({'cmd': 0x21})` before any
`init_cmds` attribute exists (it is first assigned only at line 144), so
construction raises `AttributeError` instead of appending the inversion
opcode; with `invert = false` construction succeeds. -/
theorem invert_construction_raises :
    construct { invert := true } true true =
      Except.error DriverError.attributeError ∧
    (∃ d, construct { invert := false } true true = Except.ok d) := by
  exact ⟨rfl, ⟨_, rfl⟩⟩

/-- C10: The init command table is a fixed literal that does not take
the `invert` flag: whatever rotation byte it is built with, it has 51
entries, its entry at index 48 (third from last) is the unconditional
display-inversion-on command `{'cmd': 0x21, 'data': bytes([0])}`, and the
`_init` command loop — which consumes the whole table — issues the `0x21`
command transaction in every initialization. -/
theorem inversion_opcode_unconditional (m : Nat) (scratch : List Nat) :
    (init_cmds m).length = 51 ∧
    (init_cmds m).get? 48 = some ⟨0x21, some [0], none⟩ ∧
    (∃ scr2 evs, initRun scratch (init_cmds m) = Except.ok (scr2, evs) ∧
      Event.cmd 0x21 ∈ evs) := by
  refine ⟨rfl, rfl, _, _, rfl, ?_⟩
  simp [send_cmd]

end GC9A01
